import Mathlib

/-!
Verification of the command-bridge engine of `visca-remote-joystick`
(`src/bridge.rs`, with `src/state.rs` for the joystick state type).

Modelling conventions:

* `f32` values are embedded as exact rationals (`ℚ`).  Every floating-point
  operation the bridge performs (`clamp`, `abs`, comparison, subtraction,
  division, multiplication by a small integer, `round`) is modelled by the
  corresponding exact rational operation.  The inputs the program cares about
  (axis positions in `[-1, 1]`, thresholds, the constants `0.99`, `0.5`,
  `16500`) and the properties proved here are in a regime where the rational
  model and binary floating point agree on every branch decision stated in the
  claims; division by zero yields `0` in `ℚ`, matching the `NaN → 0` collapse
  of Rust's saturating `as` cast on the one expression where it can occur.
  The only intentional deviation: `ℚ` has no negative zero, so
  `is_sign_negative` is modelled as `< 0`; this only affects the sign tag of a
  zero-magnitude result, which is the same `i8` value `0` either way.
* Rust's `f32::round` rounds half away from zero; `as i8` / `as u16` on a
  float truncate toward zero and saturate to the integer type's range.
* The `watch` channel, the UDP transport and printing are external
  collaborators; the transport is modelled as an oracle `sendOk : Command →
  Bool` saying whether `send_command` succeeds, and connecting as an oracle
  `connectOk : ℕ → Bool` over attempt indices.
-/

namespace ViscaRemoteJoystick

/-- `const MAX_ZOOM_LEVEL: u16 = 16500` from `src/bridge.rs`. -/
def MAX_ZOOM_LEVEL : ℕ := 16500

/-- `JoystickState` from `src/state.rs`: three `f32` axes, modelled as `ℚ`. -/
structure JoystickState where
  axis_x : ℚ
  axis_y : ℚ
  axis_z : ℚ
deriving Repr, DecidableEq

/-- `PanTiltDirection` from the `grafton_visca` command module: the nine
discrete pan/tilt directions used by `src/bridge.rs`. -/
inductive PanTiltDirection where
  | Stop | Up | Down | Left | Right
  | UpLeft | UpRight | DownLeft | DownRight
deriving Repr, DecidableEq

/-- Rust `f32::clamp(lo, hi)`: below `lo` gives `lo`, above `hi` gives `hi`,
otherwise the value itself. -/
def clampQ (x lo hi : ℚ) : ℚ := if x < lo then lo else if x > hi then hi else x

/-- Rust `f32::abs` on non-NaN values. -/
def absQ (x : ℚ) : ℚ := if x < 0 then -x else x

/-- Rust `f32::round`: round half away from zero, as an exact integer. -/
def roundHalfAway (x : ℚ) : ℤ := if 0 ≤ x then ⌊x + 1/2⌋ else ⌈x - 1/2⌉

/-- Rust `as i8` applied to a float already holding an integral value:
saturate to `[-128, 127]`. -/
def i8cast (n : ℤ) : ℤ := if n < -128 then -128 else if n > 127 then 127 else n

/-- Rust `as u16` applied to a float: truncate toward zero and saturate to
`[0, 65535]` (every negative input collapses to `0`). -/
def u16cast (x : ℚ) : ℕ :=
  if x < 0 then 0 else if ⌊x⌋ > 65535 then 65535 else ⌊x⌋.toNat

/-- `interpret_axis_speed` from `src/bridge.rs` lines 178–194: clamp the axis
position to `[-1, 1]`, return `0` inside the dead zone, otherwise linearly
rescale the remaining travel, round, and copy the sign of the position. -/
def interpret_axis_speed (axis_position : ℚ) (axis_max : ℕ) (move_threshold : ℚ) : ℤ :=
  let axis_position := clampQ axis_position (-1) 1
  let axis_position_abs := absQ axis_position
  if axis_position_abs < move_threshold then 0
  else
    let percentage := (axis_position_abs - move_threshold) / (1 - move_threshold)
    let speed := i8cast (roundHalfAway (axis_max * percentage))
    if axis_position < 0 then -speed else speed

/-- `interpret_zoom_level` from `src/bridge.rs` lines 196–207: saturate above
`0.99` / below `-0.99`, otherwise map `[-1, 1]` linearly onto
`[0, MAX_ZOOM_LEVEL]` and cast to `u16`. -/
def interpret_zoom_level (axis_position : ℚ) : ℕ :=
  if axis_position > 99/100 then MAX_ZOOM_LEVEL
  else if axis_position < -(99/100) then 0
  else
    let percentage := axis_position / 2 + 1/2
    u16cast ((MAX_ZOOM_LEVEL : ℚ) * percentage)

/-- Modelled from the spec: `PanSpeed::new` of the external `grafton_visca`
crate (not part of this repository).  Per §6 of the spec a pan/tilt command
carries `pan_speed: 0..=24`, so the constructor accepts exactly `0..=24`. -/
def PanSpeed.new (v : ℕ) : Option ℕ := if v ≤ 24 then some v else none

/-- Modelled from the spec: `TiltSpeed::new` of the external `grafton_visca`
crate (not part of this repository).  Per §6 of the spec a pan/tilt command
carries `tilt_speed: 0..=20`, so the constructor accepts exactly `0..=20`. -/
def TiltSpeed.new (v : ℕ) : Option ℕ := if v ≤ 20 then some v else none

/-- The direction `match (x_speed, y_speed)` of `handle_pan_tilt`
(`src/bridge.rs` lines 130–140), with Rust's ordered range patterns
`0`, `1..`, `..=-1` rendered as ordered sign tests; total over `ℤ × ℤ`. -/
def direction_of (x_speed y_speed : ℤ) : PanTiltDirection :=
  if x_speed = 0 then
    if y_speed = 0 then .Stop
    else if 1 ≤ y_speed then .Down
    else .Up
  else if 1 ≤ x_speed then
    if y_speed = 0 then .Right
    else if 1 ≤ y_speed then .DownRight
    else .UpRight
  else
    if y_speed = 0 then .Left
    else if 1 ≤ y_speed then .DownLeft
    else .UpLeft

/-- The configuration fields of `CameraBridge` (`src/bridge.rs` lines 16–28)
that the control cycle reads but never writes. -/
structure Config where
  pan_tilt_threshold : ℚ
  pan_max_speed : ℕ
  tilt_max_speed : ℕ
  invert_z_axis : Bool
deriving Repr, DecidableEq

/-- The mutable intent fields of `CameraBridge` (`src/bridge.rs` lines 24–27):
this is the `BridgeState` of the spec.  `pan_speed` / `tilt_speed` hold the
`get_value()` payloads of the `PanSpeed` / `TiltSpeed` newtypes. -/
structure BridgeState where
  pan_tilt_direction : PanTiltDirection
  pan_speed : ℕ
  tilt_speed : ℕ
  last_zoom_position : Option ℕ
deriving Repr, DecidableEq

/-- `CameraBridge::new` (`src/bridge.rs` lines 31–57), restricted to the
fields relevant to the control cycle: clamps the configured maxima with
`.min(24)` / `.min(20)` and starts from the all-stop state with no zoom. -/
def CameraBridge.new (pan_tilt_threshold : ℚ) (pan_max_speed tilt_max_speed : ℕ)
    (invert_z_axis : Bool) : Config × BridgeState :=
  ({ pan_tilt_threshold := pan_tilt_threshold
     pan_max_speed := min pan_max_speed 24
     tilt_max_speed := min tilt_max_speed 20
     invert_z_axis := invert_z_axis },
   { pan_tilt_direction := .Stop
     pan_speed := 0
     tilt_speed := 0
     last_zoom_position := none })

/-- `CameraBridge::handle_pan_tilt` (`src/bridge.rs` lines 121–160).
`none` models a panic of one of the two `.unwrap()` calls; otherwise the
result is the `changed` flag together with the updated bridge state. -/
def handle_pan_tilt (cfg : Config) (self : BridgeState) (state : JoystickState) :
    Option (Bool × BridgeState) := do
  let x_speed := interpret_axis_speed state.axis_x cfg.pan_max_speed cfg.pan_tilt_threshold
  let y_speed := interpret_axis_speed state.axis_y cfg.tilt_max_speed cfg.pan_tilt_threshold
  let pan_speed ← PanSpeed.new x_speed.natAbs
  let tilt_speed ← TiltSpeed.new y_speed.natAbs
  let direction := direction_of x_speed y_speed
  let (self, changed) :=
    if direction ≠ self.pan_tilt_direction then
      ({ self with pan_tilt_direction := direction }, true)
    else (self, false)
  let (self, changed) :=
    if pan_speed ≠ self.pan_speed then
      ({ self with pan_speed := pan_speed }, true)
    else (self, changed)
  let (self, changed) :=
    if tilt_speed ≠ self.tilt_speed then
      ({ self with tilt_speed := tilt_speed }, true)
    else (self, changed)
  pure (changed, self)

/-- `CameraBridge::handle_zoom` (`src/bridge.rs` lines 162–175). -/
def handle_zoom (cfg : Config) (self : BridgeState) (state : JoystickState) :
    Bool × BridgeState :=
  let zoom_level := interpret_zoom_level
    (if cfg.invert_z_axis then -state.axis_z else state.axis_z)
  if some zoom_level ≠ self.last_zoom_position then
    (true, { self with last_zoom_position := some zoom_level })
  else (false, self)

/-- The two command shapes the bridge sends (`PanTiltCommand` and
`ZoomCommand::Direct` of `grafton_visca`), carrying the payload values. -/
inductive Command where
  | panTilt (pan_speed tilt_speed : ℕ) (direction : PanTiltDirection)
  | zoomDirect (position : ℕ)
deriving Repr, DecidableEq

/-- Whether a command is a pan/tilt command. -/
def Command.isPanTilt : Command → Bool
  | .panTilt _ _ _ => true
  | .zoomDirect _ => false

/-- Whether a command is a zoom command. -/
def Command.isZoom : Command → Bool
  | .panTilt _ _ _ => false
  | .zoomDirect _ => true

/-- The ranges the spec's §6 transport interface admits: pan speed `0..=24`,
tilt speed `0..=20`, zoom position `0..=MAX_ZOOM`. -/
def Command.valid : Command → Prop
  | .panTilt p t _ => p ≤ 24 ∧ t ≤ 20
  | .zoomDirect z => z ≤ MAX_ZOOM_LEVEL

/-- Outcome of one body of the inner loop of `CameraBridge::run`
(`src/bridge.rs` lines 64–105): the bridge state afterwards, the commands
passed to `transport.send_command` in order, whether the loop `break`s back
to the reconnect loop, and whether `thread::sleep(min_update_interval)` ran. -/
structure IterResult where
  state : BridgeState
  sent : List Command
  broke : Bool
  slept : Bool
deriving Repr, DecidableEq

/-- One iteration of the inner loop of `CameraBridge::run` (`src/bridge.rs`
lines 64–105) on a received joystick state, with transport sends decided by
the oracle `sendOk`.  `none` models a panic inside `handle_pan_tilt`. -/
def runIteration (cfg : Config) (self : BridgeState) (sendOk : Command → Bool)
    (state : JoystickState) : Option IterResult := do
  let (ptChanged, self) ← handle_pan_tilt cfg self state
  let ptCmd := Command.panTilt self.pan_speed self.tilt_speed self.pan_tilt_direction
  if ptChanged && ! sendOk ptCmd then
    pure { state := self, sent := [ptCmd], broke := true, slept := false }
  else
    let sentPt := if ptChanged then [ptCmd] else []
    let (zoomChanged, self) := handle_zoom cfg self state
    if zoomChanged then
      match self.last_zoom_position with
      | some zoom_position =>
        let zCmd := Command.zoomDirect zoom_position
        if sendOk zCmd then
          pure { state := self, sent := sentPt ++ [zCmd], broke := false, slept := true }
        else
          pure { state := self, sent := sentPt ++ [zCmd], broke := true, slept := false }
      | none =>
        pure { state := self, sent := sentPt, broke := false, slept := true }
    else
      pure { state := self, sent := sentPt, broke := false, slept := ptChanged }

/-- `CameraBridge::connect_to_camera` (`src/bridge.rs` lines 109–119), with
connection attempts decided by the oracle `connectOk` indexed by attempt
number and an explicit fuel bound standing for "observe at most this many
attempts".  The value returned is the index of the winning attempt together
with the total seconds slept (5 per failed attempt); `none` means the loop is
still retrying after `fuel` attempts — the function has no error outcome. -/
def connect_to_camera (connectOk : ℕ → Bool) : ℕ → ℕ → Option (ℕ × ℕ)
  | 0, _ => none
  | fuel + 1, attempt =>
    if connectOk attempt then some (attempt, 5 * attempt)
    else connect_to_camera connectOk fuel (attempt + 1)

/-- The pan/tilt intent `(direction, pan_speed, tilt_speed)` that
`handle_pan_tilt` derives from a joystick state. -/
def derived_pan_tilt (cfg : Config) (state : JoystickState) :
    PanTiltDirection × ℕ × ℕ :=
  let x_speed := interpret_axis_speed state.axis_x cfg.pan_max_speed cfg.pan_tilt_threshold
  let y_speed := interpret_axis_speed state.axis_y cfg.tilt_max_speed cfg.pan_tilt_threshold
  (direction_of x_speed y_speed, x_speed.natAbs, y_speed.natAbs)

/-- The absolute zoom position that `handle_zoom` derives from a joystick
state. -/
def derived_zoom (cfg : Config) (state : JoystickState) : ℕ :=
  interpret_zoom_level (if cfg.invert_z_axis then -state.axis_z else state.axis_z)

/-- The pan/tilt command `run` builds from the current bridge state
(`src/bridge.rs` lines 76–80). -/
def ptCmdOf (st : BridgeState) : Command :=
  .panTilt st.pan_speed st.tilt_speed st.pan_tilt_direction

/-- The pan/tilt commands attempted in one iteration: one if the pan/tilt
intent changed, none otherwise. -/
def ptSentOf (c : Bool) (st : BridgeState) : List Command :=
  if c then [ptCmdOf st] else []

/-- Mutual consistency of the pan/tilt fields of a `BridgeState` (§3 of the
spec): `Stop` iff both speeds are zero, zero pan speed iff the direction has
no horizontal component, zero tilt speed iff no vertical component. -/
def consistent (st : BridgeState) : Prop :=
  (st.pan_tilt_direction = .Stop ↔ st.pan_speed = 0 ∧ st.tilt_speed = 0) ∧
  (st.pan_speed = 0 ↔
    st.pan_tilt_direction ∈ [PanTiltDirection.Stop, .Up, .Down]) ∧
  (st.tilt_speed = 0 ↔
    st.pan_tilt_direction ∈ [PanTiltDirection.Stop, .Left, .Right])

instance (st : BridgeState) : Decidable (consistent st) := by
  unfold consistent; infer_instance

/-! ### Unfolding equations (the `let` bindings zeta-reduced) -/

lemma interpret_axis_speed_eq (p t : ℚ) (m : ℕ) :
    interpret_axis_speed p m t =
      if absQ (clampQ p (-1) 1) < t then 0
      else if clampQ p (-1) 1 < 0 then
        -(i8cast (roundHalfAway ((m : ℚ) *
          ((absQ (clampQ p (-1) 1) - t) / (1 - t)))))
      else
        i8cast (roundHalfAway ((m : ℚ) *
          ((absQ (clampQ p (-1) 1) - t) / (1 - t)))) := rfl

lemma interpret_zoom_level_eq (p : ℚ) :
    interpret_zoom_level p =
      if p > 99/100 then MAX_ZOOM_LEVEL
      else if p < -(99/100) then 0
      else u16cast ((MAX_ZOOM_LEVEL : ℚ) * (p / 2 + 1/2)) := rfl

/-! ### Basic lemmas about the numeric helpers -/

lemma i8cast_eq_zero {n : ℤ} : i8cast n = 0 ↔ n = 0 := by
  unfold i8cast
  split_ifs with h1 h2
  · exact ⟨fun h => absurd h (by decide), fun h => by omega⟩
  · exact ⟨fun h => absurd h (by decide), fun h => by omega⟩
  · exact Iff.rfl

lemma clampQ_le {x lo hi : ℚ} (h : lo ≤ hi) : clampQ x lo hi ≤ hi := by
  unfold clampQ; split_ifs <;> linarith

lemma le_clampQ {x lo hi : ℚ} (h : lo ≤ hi) : lo ≤ clampQ x lo hi := by
  unfold clampQ; split_ifs <;> linarith

lemma absQ_nonneg (x : ℚ) : 0 ≤ absQ x := by
  unfold absQ; split_ifs <;> linarith

lemma absQ_clampQ_le_one (x : ℚ) : absQ (clampQ x (-1) 1) ≤ 1 := by
  have h1 := @le_clampQ x (-1) 1 (by norm_num)
  have h2 := @clampQ_le x (-1) 1 (by norm_num)
  unfold absQ; split_ifs <;> linarith

lemma roundHalfAway_nonneg {x : ℚ} (h : 0 ≤ x) : 0 ≤ roundHalfAway x := by
  unfold roundHalfAway
  rw [if_pos h]
  positivity

lemma roundHalfAway_le_nat {x : ℚ} {m : ℕ} (h0 : 0 ≤ x) (h : x ≤ m) :
    roundHalfAway x ≤ m := by
  unfold roundHalfAway
  rw [if_pos h0]
  have h2 : ⌊x + 1/2⌋ < (m : ℤ) + 1 := by
    rw [Int.floor_lt]
    push_cast
    linarith
  omega

/-- In the non-dead-zone branch the rescaled travel percentage lies in
`[0, 1]`, for every rational threshold (at `t = 1` the division is by zero
and yields `0`, matching the `NaN → 0` collapse of the `as i8` cast). -/
lemma percentage_bounds {t : ℚ} (a : ℚ) (hdead : ¬ absQ (clampQ a (-1) 1) < t) :
    0 ≤ (absQ (clampQ a (-1) 1) - t) / (1 - t) ∧
      (absQ (clampQ a (-1) 1) - t) / (1 - t) ≤ 1 := by
  have habs1 : absQ (clampQ a (-1) 1) ≤ 1 := absQ_clampQ_le_one a
  have ht1 : t ≤ 1 := le_trans (not_lt.mp hdead) habs1
  rcases lt_or_eq_of_le ht1 with h1 | h1
  · constructor
    · exact div_nonneg (by linarith [not_lt.mp hdead]) (by linarith)
    · rw [div_le_one (by linarith)]
      linarith
  · rw [h1]
    norm_num

/-- The magnitude bound of `interpret_axis_speed`: for every position, every
threshold and every maximum, the result's absolute value is at most the
maximum. -/
lemma interpret_axis_speed_natAbs_le (p t : ℚ) (m : ℕ) :
    (interpret_axis_speed p m t).natAbs ≤ m := by
  rw [interpret_axis_speed_eq]
  by_cases hdead : absQ (clampQ p (-1) 1) < t
  · simp [hdead]
  · obtain ⟨hpct0, hpct1⟩ := percentage_bounds p hdead
    set pct : ℚ := (absQ (clampQ p (-1) 1) - t) / (1 - t) with hpct
    have hx0 : 0 ≤ (m : ℚ) * pct := mul_nonneg (Nat.cast_nonneg m) hpct0
    have hxm : (m : ℚ) * pct ≤ m := by nlinarith [Nat.cast_nonneg (α := ℚ) m]
    have hr0 : 0 ≤ roundHalfAway ((m : ℚ) * pct) := roundHalfAway_nonneg hx0
    have hrm : roundHalfAway ((m : ℚ) * pct) ≤ m := roundHalfAway_le_nat hx0 hxm
    rw [if_neg hdead]
    unfold i8cast
    split_ifs <;> omega

/-- The result of `interpret_zoom_level` never exceeds `MAX_ZOOM_LEVEL`. -/
lemma interpret_zoom_level_le (p : ℚ) :
    interpret_zoom_level p ≤ MAX_ZOOM_LEVEL := by
  rw [interpret_zoom_level_eq]
  split_ifs with h1 h2
  · exact le_refl _
  · exact Nat.zero_le _
  · have hp : p ≤ 99/100 := not_lt.mp h1
    have hfl : ⌊(MAX_ZOOM_LEVEL : ℚ) * (p / 2 + 1/2)⌋ ≤ 16500 := by
      have h4 : ⌊(MAX_ZOOM_LEVEL : ℚ) * (p / 2 + 1/2)⌋ < (16501 : ℤ) := by
        rw [Int.floor_lt]
        unfold MAX_ZOOM_LEVEL
        push_cast
        linarith
      omega
    have hM : MAX_ZOOM_LEVEL = 16500 := rfl
    unfold u16cast
    split_ifs <;> omega

/-! ### Concrete evaluations of the axis interpreters

`ℚ` arithmetic does not reduce in the kernel, so concrete values are
established through `norm_num` rather than `decide`. -/

lemma floor_half : ⌊(1/2 : ℚ)⌋ = 0 := by
  rw [Int.floor_eq_iff]
  norm_num

lemma interpret_axis_speed_zero (m : ℕ) {t : ℚ} (ht : 0 < t) :
    interpret_axis_speed 0 m t = 0 := by
  rw [interpret_axis_speed_eq]
  rw [if_pos]
  norm_num [clampQ, absQ]
  exact ht

lemma interpret_axis_speed_one_24 : interpret_axis_speed 1 24 (1/4) = 24 := by
  rw [interpret_axis_speed_eq]
  have hc : clampQ 1 (-1) 1 = 1 := by norm_num [clampQ]
  rw [hc]
  have ha : absQ 1 = 1 := by norm_num [absQ]
  rw [ha]
  rw [if_neg (by norm_num)]
  rw [if_neg (by norm_num)]
  have hpct : ((1 : ℚ) - 1/4) / (1 - 1/4) = 1 := by norm_num
  rw [hpct]
  have hr : roundHalfAway ((24 : ℕ) * (1 : ℚ)) = 24 := by
    unfold roundHalfAway
    rw [if_pos (by norm_num)]
    rw [show ((24 : ℕ) : ℚ) * 1 + 1/2 = 24 + 1/2 by norm_num]
    rw [Int.floor_eq_iff]
    norm_num
  rw [hr]
  decide

lemma interpret_zoom_level_zero : interpret_zoom_level 0 = 8250 := by
  rw [interpret_zoom_level_eq]
  rw [if_neg (by norm_num), if_neg (by norm_num)]
  have hx : (MAX_ZOOM_LEVEL : ℚ) * ((0 : ℚ) / 2 + 1/2) = 8250 := by
    unfold MAX_ZOOM_LEVEL
    norm_num
  rw [hx]
  unfold u16cast
  rw [if_neg (by norm_num)]
  have hf : ⌊(8250 : ℚ)⌋ = 8250 := by
    rw [Int.floor_eq_iff]
    norm_num
  rw [hf]
  decide

lemma interpret_zoom_level_one : interpret_zoom_level 1 = MAX_ZOOM_LEVEL := by
  rw [interpret_zoom_level_eq]
  rw [if_pos (by norm_num)]

lemma clampQ_of_mem {x : ℚ} (h1 : -1 ≤ x) (h2 : x ≤ 1) : clampQ x (-1) 1 = x := by
  unfold clampQ
  rw [if_neg (by linarith), if_neg (by linarith)]

lemma absQ_of_nonneg {x : ℚ} (h : 0 ≤ x) : absQ x = x := if_neg (not_lt.mpr h)

lemma interpret_axis_speed_quarter : interpret_axis_speed (1/4) 24 (1/4) = 0 := by
  rw [interpret_axis_speed_eq, clampQ_of_mem (by norm_num) (by norm_num),
    absQ_of_nonneg (by norm_num)]
  rw [if_neg (by norm_num), if_neg (by norm_num)]
  rw [show ((1 : ℚ)/4 - 1/4) / (1 - 1/4) = 0 by norm_num]
  have hr : roundHalfAway (((24 : ℕ) : ℚ) * 0) = 0 := by
    unfold roundHalfAway
    rw [if_pos (by norm_num), show ((24 : ℕ) : ℚ) * 0 + 1/2 = 1/2 by norm_num]
    exact floor_half
  rw [hr]
  decide

/-! ### C1: the dead-zone characterisation of `interpret_axis_speed` -/

/-- C1 (counterexample): the claim "`interpret_axis_speed` returns 0 iff
`|clamp(position)| < threshold`" is false as stated: at `position = 1/4`,
`threshold = 1/4`, `max_speed = 24` the function returns `0` although
`|clamp(1/4)| < 1/4` does not hold (the rescaled travel is `0`, which rounds
to speed `0`). -/
theorem interpret_axis_speed_zero_iff_counterexample :
    interpret_axis_speed (1/4) 24 (1/4) = 0 ∧
      ¬ absQ (clampQ (1/4) (-1) 1) < (1/4 : ℚ) := by
  refine ⟨interpret_axis_speed_quarter, ?_⟩
  rw [clampQ_of_mem (by norm_num) (by norm_num), absQ_of_nonneg (by norm_num)]
  norm_num

/-- C1 (amended): for every position in `[-1, 1]` and threshold in `[0, 1)`,
`interpret_axis_speed` returns 0 iff `|clamp(position)| < threshold` **or**
the rounded rescaled magnitude
`round(max_speed * (|clamp(position)| - threshold) / (1 - threshold))` is
zero (the claim's plain "iff `|clamp(position)| < threshold`" holds
left-to-right but not right-to-left). -/
theorem interpret_axis_speed_zero_iff (p t : ℚ) (m : ℕ)
    (hp1 : -1 ≤ p) (hp2 : p ≤ 1) (ht0 : 0 ≤ t) (ht1 : t < 1) :
    interpret_axis_speed p m t = 0 ↔
      absQ (clampQ p (-1) 1) < t ∨
        roundHalfAway ((m : ℚ) *
          ((absQ (clampQ p (-1) 1) - t) / (1 - t))) = 0 := by
  rw [interpret_axis_speed_eq]
  by_cases hdead : absQ (clampQ p (-1) 1) < t
  · simp [hdead]
  · rw [if_neg hdead]
    simp only [hdead, false_or]
    split_ifs with hneg
    · rw [neg_eq_zero]
      exact i8cast_eq_zero
    · exact i8cast_eq_zero

/-- C1 (witness): the amended equivalence at `position = 0`,
`threshold = 1/2`, `max_speed = 24`. -/
theorem interpret_axis_speed_zero_iff_witness :
    interpret_axis_speed 0 24 (1/2) = 0 ↔
      absQ (clampQ 0 (-1) 1) < (1/2 : ℚ) ∨
        roundHalfAway (((24 : ℕ) : ℚ) *
          ((absQ (clampQ 0 (-1) 1) - 1/2) / (1 - 1/2))) = 0 :=
  interpret_axis_speed_zero_iff 0 (1/2) 24 (by norm_num) (by norm_num)
    (by norm_num) (by norm_num)

/-! ### C3: the direction classifier table -/

/-- C3: the direction classifier is total over all signed-speed pairs (a
total Lean function on `ℤ × ℤ`, which contains all `(i8, i8)` pairs) and
maps every sign combination exactly per the spec table, with positive
y-speed mapping to `Down`. -/
theorem direction_of_table (x y : ℤ) :
    (x = 0 → y = 0 → direction_of x y = .Stop) ∧
    (x = 0 → 0 < y → direction_of x y = .Down) ∧
    (x = 0 → y < 0 → direction_of x y = .Up) ∧
    (0 < x → y = 0 → direction_of x y = .Right) ∧
    (0 < x → 0 < y → direction_of x y = .DownRight) ∧
    (0 < x → y < 0 → direction_of x y = .UpRight) ∧
    (x < 0 → y = 0 → direction_of x y = .Left) ∧
    (x < 0 → 0 < y → direction_of x y = .DownLeft) ∧
    (x < 0 → y < 0 → direction_of x y = .UpLeft) := by
  refine ⟨?_, ?_, ?_, ?_, ?_, ?_, ?_, ?_, ?_⟩ <;>
    · intro h1 h2
      unfold direction_of
      split_ifs <;> first | rfl | omega

/-- C3 (witness): the nine table rows at concrete inputs. -/
theorem direction_of_table_witness :
    direction_of 0 0 = .Stop ∧ direction_of 0 7 = .Down ∧
    direction_of 0 (-7) = .Up ∧ direction_of 7 0 = .Right ∧
    direction_of 7 7 = .DownRight ∧ direction_of 7 (-7) = .UpRight ∧
    direction_of (-7) 0 = .Left ∧ direction_of (-7) 7 = .DownLeft ∧
    direction_of (-7) (-7) = .UpLeft :=
  ⟨(direction_of_table 0 0).1 rfl rfl,
   (direction_of_table 0 7).2.1 rfl (by norm_num),
   (direction_of_table 0 (-7)).2.2.1 rfl (by norm_num),
   (direction_of_table 7 0).2.2.2.1 (by norm_num) rfl,
   (direction_of_table 7 7).2.2.2.2.1 (by norm_num) (by norm_num),
   (direction_of_table 7 (-7)).2.2.2.2.2.1 (by norm_num) (by norm_num),
   (direction_of_table (-7) 0).2.2.2.2.2.2.1 (by norm_num) rfl,
   (direction_of_table (-7) 7).2.2.2.2.2.2.2.1 (by norm_num) (by norm_num),
   (direction_of_table (-7) (-7)).2.2.2.2.2.2.2.2 (by norm_num) (by norm_num)⟩

/-! ### C4: `interpret_zoom_level` -/

lemma castMAX : ((MAX_ZOOM_LEVEL : ℕ) : ℚ) = 16500 := by
  norm_num [MAX_ZOOM_LEVEL]

/-- In the non-saturated band the zoom level is the floor of the linear
map. -/
lemma interpret_zoom_level_mid {p : ℚ} (h1 : -(99/100) ≤ p) (h2 : p ≤ 99/100) :
    interpret_zoom_level p = (⌊(MAX_ZOOM_LEVEL : ℚ) * (p / 2 + 1/2)⌋).toNat := by
  rw [interpret_zoom_level_eq, if_neg (not_lt.mpr h2), if_neg (not_lt.mpr h1)]
  unfold u16cast
  have hx0 : ¬ (MAX_ZOOM_LEVEL : ℚ) * (p / 2 + 1/2) < 0 := by
    rw [castMAX]
    nlinarith
  have hfl : ¬ ⌊(MAX_ZOOM_LEVEL : ℚ) * (p / 2 + 1/2)⌋ > 65535 := by
    have h4 : ⌊(MAX_ZOOM_LEVEL : ℚ) * (p / 2 + 1/2)⌋ < (16501 : ℤ) := by
      rw [Int.floor_lt, castMAX]
      push_cast
      nlinarith
    omega
  rw [if_neg hx0, if_neg hfl]

/-- C4: `interpret_zoom_level` saturates to `MAX_ZOOM_LEVEL` above `0.99`
and to `0` below `-0.99`, is the floor of the linear map in between, maps
`1` to `MAX_ZOOM_LEVEL` and `-1` to `0`, and is monotone non-decreasing on
`[-1, 1]`. -/
theorem interpret_zoom_level_spec (p q : ℚ) :
    (99/100 < p → interpret_zoom_level p = MAX_ZOOM_LEVEL) ∧
    (p < -(99/100) → interpret_zoom_level p = 0) ∧
    (-(99/100) ≤ p → p ≤ 99/100 →
      interpret_zoom_level p = (⌊(MAX_ZOOM_LEVEL : ℚ) * (p / 2 + 1/2)⌋).toNat) ∧
    interpret_zoom_level 1 = MAX_ZOOM_LEVEL ∧
    interpret_zoom_level (-1) = 0 ∧
    (-1 ≤ p → p ≤ q → q ≤ 1 → interpret_zoom_level p ≤ interpret_zoom_level q) := by
  refine ⟨?_, ?_, ?_, interpret_zoom_level_one, ?_, ?_⟩
  · intro h
    rw [interpret_zoom_level_eq, if_pos h]
  · intro h
    rw [interpret_zoom_level_eq, if_neg (by linarith), if_pos h]
  · exact fun h1 h2 => interpret_zoom_level_mid h1 h2
  · rw [interpret_zoom_level_eq, if_neg (by norm_num), if_pos (by norm_num)]
  · intro hp1 hpq hq1
    by_cases hq : 99/100 < q
    · have hq2 : interpret_zoom_level q = MAX_ZOOM_LEVEL := by
        rw [interpret_zoom_level_eq, if_pos hq]
      rw [hq2]
      exact interpret_zoom_level_le p
    · by_cases hp : p < -(99/100)
      · have hp2 : interpret_zoom_level p = 0 := by
          rw [interpret_zoom_level_eq, if_neg (by linarith), if_pos hp]
        rw [hp2]
        exact Nat.zero_le _
      · have hpm := interpret_zoom_level_mid (not_lt.mp hp)
          (le_trans hpq (not_lt.mp hq))
        have hqm := interpret_zoom_level_mid (le_trans (not_lt.mp hp) hpq)
          (not_lt.mp hq)
        rw [hpm, hqm]
        apply Int.toNat_le_toNat
        apply Int.floor_le_floor
        rw [castMAX]
        linarith

/-- C4 (witness): monotonicity at `0 ≤ 1/2` and the two endpoint values. -/
theorem interpret_zoom_level_spec_witness :
    interpret_zoom_level 0 ≤ interpret_zoom_level (1/2) ∧
    interpret_zoom_level 1 = MAX_ZOOM_LEVEL ∧ interpret_zoom_level (-1) = 0 :=
  ⟨(interpret_zoom_level_spec 0 (1/2)).2.2.2.2.2 (by norm_num) (by norm_num)
    (by norm_num),
   (interpret_zoom_level_spec 0 0).2.2.2.1,
   (interpret_zoom_level_spec 0 0).2.2.2.2.1⟩

/-! ### Characterising one step of the change detector -/

/-- `handle_pan_tilt`, when it returns, leaves exactly the derived pan/tilt
intent in the state, leaves the zoom position untouched, and reports
`changed = false` exactly when the derived intent equals the stored one. -/
lemma handle_pan_tilt_eq_some {cfg : Config} {st : BridgeState}
    {js : JoystickState} {c : Bool} {st2 : BridgeState}
    (h : handle_pan_tilt cfg st js = some (c, st2)) :
    st2.pan_tilt_direction = (derived_pan_tilt cfg js).1 ∧
    st2.pan_speed = (derived_pan_tilt cfg js).2.1 ∧
    st2.tilt_speed = (derived_pan_tilt cfg js).2.2 ∧
    st2.last_zoom_position = st.last_zoom_position ∧
    (c = false ↔ derived_pan_tilt cfg js =
      (st.pan_tilt_direction, st.pan_speed, st.tilt_speed)) := by
  obtain ⟨dir, ps, ts, zoom⟩ := st
  unfold handle_pan_tilt at h
  unfold derived_pan_tilt
  set x := interpret_axis_speed js.axis_x cfg.pan_max_speed cfg.pan_tilt_threshold
    with hxdef
  set y := interpret_axis_speed js.axis_y cfg.tilt_max_speed cfg.pan_tilt_threshold
    with hydef
  unfold PanSpeed.new TiltSpeed.new at h
  dsimp only at h ⊢
  by_cases h24 : x.natAbs ≤ 24
  · rw [if_pos h24] at h
    by_cases h20 : y.natAbs ≤ 20
    · rw [if_pos h20] at h
      simp only [Option.bind_eq_bind, Option.some_bind, Option.pure_def] at h
      split_ifs at h <;>
        · simp only [Option.some.injEq, Prod.ext_iff] at h
          obtain ⟨hc, hst⟩ := h
          subst hc
          subst hst
          simp_all [Prod.ext_iff]
    · rw [if_neg h20] at h
      simp at h
  · rw [if_neg h24] at h
    simp at h

/-- `handle_zoom` in closed form: change iff the derived zoom differs from
the stored one (initial `none` differs from every `some`). -/
lemma handle_zoom_eq (cfg : Config) (st : BridgeState) (js : JoystickState) :
    handle_zoom cfg st js =
      if some (derived_zoom cfg js) ≠ st.last_zoom_position then
        (true, { st with last_zoom_position := some (derived_zoom cfg js) })
      else (false, st) := rfl

/-- With the constructor-clamped maxima, the two `.unwrap()` calls in
`handle_pan_tilt` can never panic. -/
lemma handle_pan_tilt_isSome {cfg : Config} {st : BridgeState}
    {js : JoystickState} (hp : cfg.pan_max_speed ≤ 24)
    (ht : cfg.tilt_max_speed ≤ 20) :
    ∃ c st2, handle_pan_tilt cfg st js = some (c, st2) := by
  unfold handle_pan_tilt PanSpeed.new TiltSpeed.new
  dsimp only
  rw [if_pos (le_trans (interpret_axis_speed_natAbs_le _ _ _) hp),
    if_pos (le_trans (interpret_axis_speed_natAbs_le _ _ _) ht)]
  simp only [Option.bind_eq_bind, Option.some_bind, Option.pure_def]
  split_ifs <;> exact ⟨_, _, rfl⟩

/-- Full case analysis of one inner-loop iteration: either the pan/tilt send
fails and the loop breaks at once, or the zoom stage runs, itself either
detecting no change (sleep only if pan/tilt changed), or attempting one zoom
command that either succeeds (sleep) or fails (break, no sleep). -/
lemma runIteration_spec {cfg : Config} {st : BridgeState}
    {sendOk : Command → Bool} {js : JoystickState} {res : IterResult}
    (h : runIteration cfg st sendOk js = some res) :
    ∃ c st2, handle_pan_tilt cfg st js = some (c, st2) ∧
      ((c = true ∧ sendOk (ptCmdOf st2) = false ∧
          res = ⟨st2, [ptCmdOf st2], true, false⟩) ∨
       ((c = false ∨ sendOk (ptCmdOf st2) = true) ∧
         ((some (derived_zoom cfg js) = st2.last_zoom_position ∧
            res = ⟨st2, ptSentOf c st2, false, c⟩) ∨
          (some (derived_zoom cfg js) ≠ st2.last_zoom_position ∧
            ((sendOk (Command.zoomDirect (derived_zoom cfg js)) = true ∧
               res = ⟨{ st2 with last_zoom_position := some (derived_zoom cfg js) },
                      ptSentOf c st2 ++ [Command.zoomDirect (derived_zoom cfg js)],
                      false, true⟩) ∨
             (sendOk (Command.zoomDirect (derived_zoom cfg js)) = false ∧
               res = ⟨{ st2 with last_zoom_position := some (derived_zoom cfg js) },
                      ptSentOf c st2 ++ [Command.zoomDirect (derived_zoom cfg js)],
                      true, false⟩)))))) := by
  unfold runIteration at h
  cases hpt : handle_pan_tilt cfg st js with
  | none =>
    rw [hpt] at h
    simp at h
  | some pair =>
    obtain ⟨c, st2⟩ := pair
    rw [hpt] at h
    simp only [Option.bind_eq_bind, Option.some_bind, Option.pure_def] at h
    refine ⟨c, st2, rfl, ?_⟩
    by_cases hbrk :
        (c && ! sendOk (Command.panTilt st2.pan_speed st2.tilt_speed
          st2.pan_tilt_direction)) = true
    · rw [if_pos hbrk] at h
      rw [Bool.and_eq_true, Bool.not_eq_true'] at hbrk
      obtain ⟨hc, hs⟩ := hbrk
      left
      refine ⟨hc, hs, ?_⟩
      rw [Option.some.injEq] at h
      exact h.symm
    · rw [if_neg hbrk] at h
      right
      rw [Bool.and_eq_true, Bool.not_eq_true'] at hbrk
      constructor
      · by_cases hc : c = true
        · cases hok : sendOk (Command.panTilt st2.pan_speed st2.tilt_speed
            st2.pan_tilt_direction) with
          | false => exact absurd ⟨hc, hok⟩ hbrk
          | true => exact Or.inr hok
        · cases c with
          | false => exact Or.inl rfl
          | true => exact absurd rfl hc
      · rw [handle_zoom_eq] at h
        by_cases hz : some (derived_zoom cfg js) ≠ st2.last_zoom_position
        · right
          refine ⟨hz, ?_⟩
          rw [if_pos hz] at h
          dsimp only at h
          rw [if_pos (rfl : (true : Bool) = true)] at h
          by_cases hsz : sendOk (Command.zoomDirect (derived_zoom cfg js)) = true
          · left
            refine ⟨hsz, ?_⟩
            rw [if_pos hsz] at h
            rw [Option.some.injEq] at h
            exact h.symm
          · right
            refine ⟨Bool.eq_false_iff.mpr ?_ , ?_⟩
            · exact fun hh => hsz (by rw [hh])
            · rw [if_neg hsz] at h
              rw [Option.some.injEq] at h
              exact h.symm
        · left
          refine ⟨not_not.mp hz, ?_⟩
          rw [if_neg hz] at h
          dsimp only at h
          rw [if_neg (by decide : ¬ ((false : Bool) = true))] at h
          rw [Option.some.injEq] at h
          exact h.symm

/-- After any completed iteration the pan/tilt fields of the bridge state
are exactly the freshly derived intent (never rolled back). -/
lemma runIteration_state_pan_tilt {cfg : Config} {st : BridgeState}
    {sendOk : Command → Bool} {js : JoystickState} {res : IterResult}
    (h : runIteration cfg st sendOk js = some res) :
    res.state.pan_tilt_direction = (derived_pan_tilt cfg js).1 ∧
    res.state.pan_speed = (derived_pan_tilt cfg js).2.1 ∧
    res.state.tilt_speed = (derived_pan_tilt cfg js).2.2 := by
  obtain ⟨c, st2, hpt, hcase⟩ := runIteration_spec h
  obtain ⟨h1, h2, h3, h4, h5⟩ := handle_pan_tilt_eq_some hpt
  rcases hcase with ⟨_, _, hres⟩ | ⟨_, ⟨_, hres⟩ | ⟨_, ⟨_, hres⟩ | ⟨_, hres⟩⟩⟩ <;>
    subst hres <;> exact ⟨h1, h2, h3⟩

/-- An iteration sends nothing exactly when the derived pan/tilt intent and
the derived zoom position both equal the stored bridge state. -/
lemma runIteration_sent_nil_iff {cfg : Config} {st : BridgeState}
    {sendOk : Command → Bool} {js : JoystickState} {res : IterResult}
    (h : runIteration cfg st sendOk js = some res) :
    res.sent = [] ↔
      (derived_pan_tilt cfg js =
        (st.pan_tilt_direction, st.pan_speed, st.tilt_speed) ∧
       some (derived_zoom cfg js) = st.last_zoom_position) := by
  obtain ⟨c, st2, hpt, hcase⟩ := runIteration_spec h
  obtain ⟨h1, h2, h3, h4, h5⟩ := handle_pan_tilt_eq_some hpt
  rcases hcase with ⟨hc, hs, hres⟩ | ⟨hok, hcase2⟩
  · subst hres
    subst hc
    simp only [show (true = false) = False by simp, false_iff] at h5
    simp [h5]
  · rcases hcase2 with ⟨hzeq, hres⟩ | ⟨hzne, ⟨hsz, hres⟩ | ⟨hsz, hres⟩⟩
    · subst hres
      cases c with
      | false =>
        simp only [ptSentOf, if_neg (by decide : ¬ ((false : Bool) = true))]
        rw [h4] at hzeq
        simp [h5.mp rfl, hzeq]
      | true =>
        simp only [show (true = false) = False by simp, false_iff] at h5
        simp [ptSentOf, h5]
    · subst hres
      rw [h4] at hzne
      simp [ptSentOf, hzne]
    · subst hres
      rw [h4] at hzne
      simp [ptSentOf, hzne]

/-- Per iteration at most one pan/tilt and at most one zoom command are
passed to the transport. -/
lemma runIteration_counts {cfg : Config} {st : BridgeState}
    {sendOk : Command → Bool} {js : JoystickState} {res : IterResult}
    (h : runIteration cfg st sendOk js = some res) :
    res.sent.countP Command.isPanTilt ≤ 1 ∧
      res.sent.countP Command.isZoom ≤ 1 := by
  obtain ⟨c, st2, hpt, hcase⟩ := runIteration_spec h
  rcases hcase with ⟨_, _, hres⟩ | ⟨_, ⟨_, hres⟩ | ⟨_, ⟨_, hres⟩ | ⟨_, hres⟩⟩⟩ <;>
    subst hres <;> cases c <;>
    simp [ptSentOf, ptCmdOf, Command.isPanTilt, Command.isZoom,
      List.countP_cons, List.countP_nil, List.countP_append]

/-- The inner loop breaks out of an iteration exactly when one of the
attempted sends failed. -/
lemma runIteration_broke_iff {cfg : Config} {st : BridgeState}
    {sendOk : Command → Bool} {js : JoystickState} {res : IterResult}
    (h : runIteration cfg st sendOk js = some res) :
    res.broke = true ↔ ∃ cmd ∈ res.sent, sendOk cmd = false := by
  obtain ⟨c, st2, hpt, hcase⟩ := runIteration_spec h
  rcases hcase with ⟨hc, hs, hres⟩ | ⟨hok, hcase2⟩
  · subst hres
    simp only [true_iff]
    exact ⟨ptCmdOf st2, by simp, hs⟩
  · have hptok : ∀ cmd ∈ ptSentOf c st2, sendOk cmd = true := by
      intro cmd hcmd
      cases c with
      | false => simp [ptSentOf] at hcmd
      | true =>
        rcases hok with hok | hok
        · exact absurd hok (by simp)
        · simp only [ptSentOf, if_true, eq_self_iff_true, List.mem_singleton] at hcmd
          rw [hcmd]
          exact hok
    rcases hcase2 with ⟨hzeq, hres⟩ | ⟨hzne, ⟨hsz, hres⟩ | ⟨hsz, hres⟩⟩
    · subst hres
      simp only [show (false = true) = False by simp, false_iff]
      rintro ⟨cmd, hmem, hbad⟩
      rw [hptok cmd hmem] at hbad
      exact absurd hbad (by simp)
    · subst hres
      simp only [show (false = true) = False by simp, false_iff]
      rintro ⟨cmd, hmem, hbad⟩
      rw [List.mem_append] at hmem
      rcases hmem with hmem | hmem
      · rw [hptok cmd hmem] at hbad
        exact absurd hbad (by simp)
      · rw [List.mem_singleton] at hmem
        rw [hmem, hsz] at hbad
        exact absurd hbad (by simp)
    · subst hres
      simp only [true_iff]
      exact ⟨Command.zoomDirect (derived_zoom cfg js), by simp, hsz⟩

/-- Whenever the pan/tilt stage does not break the iteration, the zoom stage
runs and records the freshly derived zoom position. -/
lemma runIteration_zoom_updated {cfg : Config} {st : BridgeState}
    {sendOk : Command → Bool} {js : JoystickState} {res : IterResult}
    (h : runIteration cfg st sendOk js = some res)
    (hcond : derived_pan_tilt cfg js =
        (st.pan_tilt_direction, st.pan_speed, st.tilt_speed) ∨
      sendOk (Command.panTilt (derived_pan_tilt cfg js).2.1
        (derived_pan_tilt cfg js).2.2 (derived_pan_tilt cfg js).1) = true) :
    res.state.last_zoom_position = some (derived_zoom cfg js) := by
  obtain ⟨c, st2, hpt, hcase⟩ := runIteration_spec h
  obtain ⟨h1, h2, h3, h4, h5⟩ := handle_pan_tilt_eq_some hpt
  have hcmd : ptCmdOf st2 = Command.panTilt (derived_pan_tilt cfg js).2.1
      (derived_pan_tilt cfg js).2.2 (derived_pan_tilt cfg js).1 := by
    rw [ptCmdOf, h1, h2, h3]
  rcases hcase with ⟨hc, hs, hres⟩ | ⟨hok, hcase2⟩
  · exfalso
    rcases hcond with hcond | hcond
    · rw [← h5] at hcond
      rw [hc] at hcond
      exact absurd hcond (by simp)
    · rw [← hcmd] at hcond
      rw [hcond] at hs
      exact absurd hs (by simp)
  · rcases hcase2 with ⟨hzeq, hres⟩ | ⟨hzne, ⟨hsz, hres⟩ | ⟨hsz, hres⟩⟩ <;> subst hres
    · rw [← hzeq]
    · rfl
    · rfl

/-- When the pan/tilt intent changed and its send fails, the iteration
breaks before the zoom stage: `last_zoom_position` keeps its old value. -/
lemma runIteration_zoom_skipped {cfg : Config} {st : BridgeState}
    {sendOk : Command → Bool} {js : JoystickState} {res : IterResult}
    (h : runIteration cfg st sendOk js = some res)
    (hne : derived_pan_tilt cfg js ≠
      (st.pan_tilt_direction, st.pan_speed, st.tilt_speed))
    (hfail : sendOk (Command.panTilt (derived_pan_tilt cfg js).2.1
      (derived_pan_tilt cfg js).2.2 (derived_pan_tilt cfg js).1) = false) :
    res.state.last_zoom_position = st.last_zoom_position := by
  obtain ⟨c, st2, hpt, hcase⟩ := runIteration_spec h
  obtain ⟨h1, h2, h3, h4, h5⟩ := handle_pan_tilt_eq_some hpt
  have hcmd : ptCmdOf st2 = Command.panTilt (derived_pan_tilt cfg js).2.1
      (derived_pan_tilt cfg js).2.2 (derived_pan_tilt cfg js).1 := by
    rw [ptCmdOf, h1, h2, h3]
  rcases hcase with ⟨hc, hs, hres⟩ | ⟨hok, hcase2⟩
  · subst hres
    exact h4
  · exfalso
    rcases hok with hok | hok
    · exact hne (h5.mp hok)
    · rw [hcmd, hfail] at hok
      exact absurd hok (by simp)

/-- Sleep behaviour of an iteration: when nothing broke, the iteration
sleeps exactly when it sent something; a broken iteration never sleeps. -/
lemma runIteration_sleep {cfg : Config} {st : BridgeState}
    {sendOk : Command → Bool} {js : JoystickState} {res : IterResult}
    (h : runIteration cfg st sendOk js = some res) :
    (res.broke = false → (res.slept = true ↔ res.sent ≠ [])) ∧
      (res.broke = true → res.slept = false) := by
  obtain ⟨c, st2, hpt, hcase⟩ := runIteration_spec h
  rcases hcase with ⟨_, _, hres⟩ | ⟨_, ⟨_, hres⟩ | ⟨_, ⟨_, hres⟩ | ⟨_, hres⟩⟩⟩ <;>
    subst hres <;> cases c <;> simp [ptSentOf]

/-! ### Direction/speed consistency -/

lemma direction_of_eq_stop_iff (x y : ℤ) :
    direction_of x y = .Stop ↔ x = 0 ∧ y = 0 := by
  unfold direction_of
  split_ifs <;> simp_all

lemma direction_of_mem_horiz_iff (x y : ℤ) :
    direction_of x y ∈ [PanTiltDirection.Stop, .Up, .Down] ↔ x = 0 := by
  unfold direction_of
  split_ifs <;> simp_all

lemma direction_of_mem_vert_iff (x y : ℤ) :
    direction_of x y ∈ [PanTiltDirection.Stop, .Left, .Right] ↔ y = 0 := by
  unfold direction_of
  split_ifs <;> simp_all

/-- Existence half of C10: with both maxima within the camera ceilings (as
the constructor guarantees) an iteration never panics. -/
lemma runIteration_isSome {cfg : Config} {st : BridgeState}
    {sendOk : Command → Bool} {js : JoystickState}
    (hp : cfg.pan_max_speed ≤ 24) (ht : cfg.tilt_max_speed ≤ 20) :
    ∃ res, runIteration cfg st sendOk js = some res := by
  obtain ⟨c, st2, hpt⟩ := @handle_pan_tilt_isSome cfg st js hp ht
  unfold runIteration
  rw [hpt]
  simp only [Option.bind_eq_bind, Option.some_bind, Option.pure_def]
  by_cases hbrk :
      (c && ! sendOk (Command.panTilt st2.pan_speed st2.tilt_speed
        st2.pan_tilt_direction)) = true
  · rw [if_pos hbrk]
    exact ⟨_, rfl⟩
  · rw [if_neg hbrk]
    rw [handle_zoom_eq]
    by_cases hz : some (derived_zoom cfg js) ≠ st2.last_zoom_position
    · rw [if_pos hz]
      dsimp only
      rw [if_pos (rfl : (true : Bool) = true)]
      by_cases hsz : sendOk (Command.zoomDirect (derived_zoom cfg js)) = true
      · rw [if_pos hsz]
        exact ⟨_, rfl⟩
      · rw [if_neg hsz]
        exact ⟨_, rfl⟩
    · rw [if_neg hz]
      dsimp only
      rw [if_neg (by decide : ¬ ((false : Bool) = true))]
      exact ⟨_, rfl⟩

/-- Range half of C10: every command attempted by an iteration respects the
transport interface ranges. -/
lemma runIteration_sent_valid {cfg : Config} {st : BridgeState}
    {sendOk : Command → Bool} {js : JoystickState} {res : IterResult}
    (h : runIteration cfg st sendOk js = some res)
    (hp : cfg.pan_max_speed ≤ 24) (ht : cfg.tilt_max_speed ≤ 20) :
    ∀ cmd ∈ res.sent, cmd.valid := by
  obtain ⟨c, st2, hpt, hcase⟩ := runIteration_spec h
  obtain ⟨h1, h2, h3, h4, h5⟩ := handle_pan_tilt_eq_some hpt
  have hpt_valid : (ptCmdOf st2).valid := by
    refine ⟨?_, ?_⟩
    · rw [h2]
      unfold derived_pan_tilt
      dsimp only
      exact le_trans (interpret_axis_speed_natAbs_le _ _ _) hp
    · rw [h3]
      unfold derived_pan_tilt
      dsimp only
      exact le_trans (interpret_axis_speed_natAbs_le _ _ _) ht
  have hz_valid : (Command.zoomDirect (derived_zoom cfg js)).valid :=
    interpret_zoom_level_le _
  have hmem_pt : ∀ cmd ∈ ptSentOf c st2, cmd.valid := by
    intro cmd hm
    cases c with
    | false => simp [ptSentOf] at hm
    | true =>
      simp only [ptSentOf, if_true, eq_self_iff_true, List.mem_singleton] at hm
      rw [hm]
      exact hpt_valid
  intro cmd hmem
  rcases hcase with ⟨_, _, hres⟩ | ⟨_, ⟨_, hres⟩ | ⟨_, ⟨_, hres⟩ | ⟨_, hres⟩⟩⟩ <;>
      subst hres
  · rw [List.mem_singleton] at hmem
    rw [hmem]
    exact hpt_valid
  · exact hmem_pt cmd hmem
  · rw [List.mem_append] at hmem
    rcases hmem with hmem | hmem
    · exact hmem_pt cmd hmem
    · rw [List.mem_singleton] at hmem
      rw [hmem]
      exact hz_valid
  · rw [List.mem_append] at hmem
    rcases hmem with hmem | hmem
    · exact hmem_pt cmd hmem
    · rw [List.mem_singleton] at hmem
      rw [hmem]
      exact hz_valid

/-! ### Concrete scenario evaluations -/

lemma derived_zoom_eval (x y z : ℚ) :
    derived_zoom ⟨1/4, 24, 20, false⟩ ⟨x, y, z⟩ = interpret_zoom_level z := by
  unfold derived_zoom
  dsimp only
  rw [if_neg (by decide : ¬ ((false : Bool) = true))]

lemma derived_pan_tilt_evalA (z : ℚ) :
    derived_pan_tilt ⟨1/4, 24, 20, false⟩ ⟨1, 0, z⟩ =
      (.Right, 24, 0) := by
  unfold derived_pan_tilt
  dsimp only
  rw [interpret_axis_speed_one_24,
    interpret_axis_speed_zero 20 (by norm_num : (0 : ℚ) < 1/4)]
  rfl

lemma derived_pan_tilt_evalC (z : ℚ) :
    derived_pan_tilt ⟨1/4, 24, 20, false⟩ ⟨0, 0, z⟩ =
      (.Stop, 0, 0) := by
  unfold derived_pan_tilt
  dsimp only
  rw [interpret_axis_speed_zero 24 (by norm_num : (0 : ℚ) < 1/4),
    interpret_axis_speed_zero 20 (by norm_num : (0 : ℚ) < 1/4)]
  rfl

lemma handle_pan_tilt_evalA (zoom : Option ℕ) (z : ℚ) :
    handle_pan_tilt ⟨1/4, 24, 20, false⟩ ⟨.Stop, 0, 0, zoom⟩ ⟨1, 0, z⟩ =
      some (true, ⟨.Right, 24, 0, zoom⟩) := by
  unfold handle_pan_tilt
  dsimp only
  rw [interpret_axis_speed_one_24,
    interpret_axis_speed_zero 20 (by norm_num : (0 : ℚ) < 1/4)]
  rfl

lemma handle_pan_tilt_evalB (zoom : Option ℕ) (z : ℚ) :
    handle_pan_tilt ⟨1/4, 24, 20, false⟩ ⟨.Right, 24, 0, zoom⟩ ⟨1, 0, z⟩ =
      some (false, ⟨.Right, 24, 0, zoom⟩) := by
  unfold handle_pan_tilt
  dsimp only
  rw [interpret_axis_speed_one_24,
    interpret_axis_speed_zero 20 (by norm_num : (0 : ℚ) < 1/4)]
  rfl

lemma handle_pan_tilt_evalC (zoom : Option ℕ) (z : ℚ) :
    handle_pan_tilt ⟨1/4, 24, 20, false⟩ ⟨.Stop, 0, 0, zoom⟩ ⟨0, 0, z⟩ =
      some (false, ⟨.Stop, 0, 0, zoom⟩) := by
  unfold handle_pan_tilt
  dsimp only
  rw [interpret_axis_speed_zero 24 (by norm_num : (0 : ℚ) < 1/4),
    interpret_axis_speed_zero 20 (by norm_num : (0 : ℚ) < 1/4)]
  rfl

/-- The C6 counterexample scenario: pan/tilt changes, the send fails. -/
lemma runIteration_evalCex :
    runIteration ⟨1/4, 24, 20, false⟩ ⟨.Stop, 0, 0, none⟩ (fun _ => false)
        ⟨1, 0, 0⟩ =
      some ⟨⟨.Right, 24, 0, none⟩, [.panTilt 24 0 .Right], true, false⟩ := by
  unfold runIteration
  rw [handle_pan_tilt_evalA none 0]
  simp only [Option.bind_eq_bind, Option.some_bind, Option.pure_def]
  rfl

/-- The C9 counterexample scenario: pan/tilt changes and its send fails
while the z axis moved to full telephoto. -/
lemma runIteration_evalCex9 :
    runIteration ⟨1/4, 24, 20, false⟩ ⟨.Stop, 0, 0, none⟩ (fun _ => false)
        ⟨1, 0, 1⟩ =
      some ⟨⟨.Right, 24, 0, none⟩, [.panTilt 24 0 .Right], true, false⟩ := by
  unfold runIteration
  rw [handle_pan_tilt_evalA none 1]
  simp only [Option.bind_eq_bind, Option.some_bind, Option.pure_def]
  rfl

/-- A quiet iteration: derived intent identical to the stored state. -/
lemma runIteration_evalQuiet :
    runIteration ⟨1/4, 24, 20, false⟩ ⟨.Stop, 0, 0, some 8250⟩ (fun _ => true)
        ⟨0, 0, 0⟩ =
      some ⟨⟨.Stop, 0, 0, some 8250⟩, [], false, false⟩ := by
  unfold runIteration
  rw [handle_pan_tilt_evalC (some 8250) 0]
  simp only [Option.bind_eq_bind, Option.some_bind, Option.pure_def]
  rw [if_neg (by decide :
    ¬ ((false && ! (fun _ => true) (Command.panTilt 0 0 PanTiltDirection.Stop))
      = true))]
  rw [handle_zoom_eq]
  rw [derived_zoom_eval 0 0 0, interpret_zoom_level_zero]
  rw [if_neg (by simp : ¬ (some 8250 ≠ some 8250))]
  dsimp only
  rw [if_neg (by decide : ¬ ((false : Bool) = true))]
  rfl

/-- The C7 witness scenario, first half: pan/tilt changes, the send fails,
zoom already agrees with the stored position. -/
lemma runIteration_evalFail :
    runIteration ⟨1/4, 24, 20, false⟩ ⟨.Stop, 0, 0, some 8250⟩ (fun _ => false)
        ⟨1, 0, 0⟩ =
      some ⟨⟨.Right, 24, 0, some 8250⟩, [.panTilt 24 0 .Right], true, false⟩ := by
  unfold runIteration
  rw [handle_pan_tilt_evalA (some 8250) 0]
  simp only [Option.bind_eq_bind, Option.some_bind, Option.pure_def]
  rfl

/-- The C7 witness scenario, second half: after reconnecting, the same
joystick state derives the same intent as the retained state and nothing is
sent. -/
lemma runIteration_evalQuiet2 :
    runIteration ⟨1/4, 24, 20, false⟩ ⟨.Right, 24, 0, some 8250⟩ (fun _ => true)
        ⟨1, 0, 0⟩ =
      some ⟨⟨.Right, 24, 0, some 8250⟩, [], false, false⟩ := by
  unfold runIteration
  rw [handle_pan_tilt_evalB (some 8250) 0]
  simp only [Option.bind_eq_bind, Option.some_bind, Option.pure_def]
  rw [if_neg (by decide :
    ¬ ((false && ! (fun _ => true) (Command.panTilt 24 0 PanTiltDirection.Right))
      = true))]
  rw [handle_zoom_eq]
  rw [derived_zoom_eval 1 0 0, interpret_zoom_level_zero]
  rw [if_neg (by simp : ¬ (some 8250 ≠ some 8250))]
  dsimp only
  rw [if_neg (by decide : ¬ ((false : Bool) = true))]
  rfl

/-! ### C2: emissions of the change detector -/

/-- C2: per processed state update, at most one pan/tilt and at most one
zoom command are emitted, and zero commands are emitted exactly when the
derived intent (direction, pan speed, tilt speed, zoom position) equals the
stored `BridgeState`, with the initial `none` zoom treated as differing from
every derived zoom. -/
theorem change_detector_emissions (cfg : Config) (st : BridgeState)
    (sendOk : Command → Bool) (js : JoystickState) (res : IterResult)
    (h : runIteration cfg st sendOk js = some res) :
    res.sent.countP Command.isPanTilt ≤ 1 ∧
    res.sent.countP Command.isZoom ≤ 1 ∧
    (res.sent = [] ↔
      (derived_pan_tilt cfg js =
        (st.pan_tilt_direction, st.pan_speed, st.tilt_speed) ∧
       some (derived_zoom cfg js) = st.last_zoom_position)) :=
  ⟨(runIteration_counts h).1, (runIteration_counts h).2,
    runIteration_sent_nil_iff h⟩

/-- C2 (witness): a quiet iteration sends nothing, and the emission
criterion evaluates accordingly. -/
theorem change_detector_emissions_witness :
    (IterResult.mk ⟨.Stop, 0, 0, some 8250⟩ [] false false).sent = [] ↔
      (derived_pan_tilt ⟨1/4, 24, 20, false⟩ ⟨0, 0, 0⟩ =
        ((⟨.Stop, 0, 0, some 8250⟩ : BridgeState).pan_tilt_direction,
         (⟨.Stop, 0, 0, some 8250⟩ : BridgeState).pan_speed,
         (⟨.Stop, 0, 0, some 8250⟩ : BridgeState).tilt_speed) ∧
       some (derived_zoom ⟨1/4, 24, 20, false⟩ ⟨0, 0, 0⟩) =
         (⟨.Stop, 0, 0, some 8250⟩ : BridgeState).last_zoom_position) :=
  (change_detector_emissions _ _ _ _ _ runIteration_evalQuiet).2.2

/-! ### C5: mutual consistency of the bridge state -/

/-- C5: the consistency invariant (direction `Stop` iff both speeds zero;
zero pan speed iff no horizontal component; zero tilt speed iff no vertical
component) holds for the freshly constructed state and for the state after
every completed iteration, from any starting state. -/
theorem bridge_state_consistency (t : ℚ) (pm tm : ℕ) (inv : Bool)
    (cfg : Config) (st : BridgeState) (sendOk : Command → Bool)
    (js : JoystickState) (res : IterResult)
    (h : runIteration cfg st sendOk js = some res) :
    consistent (CameraBridge.new t pm tm inv).2 ∧ consistent res.state := by
  constructor
  · show consistent
      { pan_tilt_direction := PanTiltDirection.Stop, pan_speed := 0,
        tilt_speed := 0, last_zoom_position := none }
    decide
  · obtain ⟨h1, h2, h3⟩ := runIteration_state_pan_tilt h
    unfold consistent
    rw [h1, h2, h3]
    unfold derived_pan_tilt
    dsimp only
    refine ⟨?_, ?_, ?_⟩
    · rw [direction_of_eq_stop_iff]
      simp [Int.natAbs_eq_zero]
    · rw [direction_of_mem_horiz_iff, Int.natAbs_eq_zero]
    · rw [direction_of_mem_vert_iff, Int.natAbs_eq_zero]

/-- C5 (witness): the invariant at the constructed state and after a
concrete iteration. -/
theorem bridge_state_consistency_witness :
    consistent (CameraBridge.new (1/4) 24 20 false).2 ∧
    consistent (IterResult.mk ⟨.Stop, 0, 0, some 8250⟩ [] false false).state :=
  bridge_state_consistency (1/4) 24 20 false _ _ _ _ _ runIteration_evalQuiet

/-! ### C6: the sleep happens iff a command was emitted — corrected -/

/-- C6 (counterexample): an iteration that emitted (attempted) one pan/tilt
command but did not sleep, because the send failed and the inner loop broke:
the claimed "sleeps iff at least one command was emitted" is false. -/
theorem run_sleep_iff_counterexample :
    (runIteration ⟨1/4, 24, 20, false⟩ ⟨.Stop, 0, 0, none⟩ (fun _ => false)
        ⟨1, 0, 0⟩).map (fun r => (r.sent.length, r.slept)) =
      some (1, false) := by
  rw [runIteration_evalCex]
  rfl

/-- C6 (amended): in an iteration that did not break (no send failed), the
bridge sleeps iff at least one command was emitted; an iteration that broke
on a failed send never sleeps, even though it attempted a command. -/
theorem run_sleep_iff (cfg : Config) (st : BridgeState)
    (sendOk : Command → Bool) (js : JoystickState) (res : IterResult)
    (h : runIteration cfg st sendOk js = some res) :
    (res.broke = false → (res.slept = true ↔ res.sent ≠ [])) ∧
      (res.broke = true → res.slept = false) :=
  runIteration_sleep h

/-- C6 (witness): the amended statement at a quiet concrete iteration. -/
theorem run_sleep_iff_witness :
    (IterResult.mk ⟨.Stop, 0, 0, some 8250⟩ [] false false).slept = true ↔
      (IterResult.mk ⟨.Stop, 0, 0, some 8250⟩ [] false false).sent ≠ [] :=
  (run_sleep_iff _ _ _ _ _ runIteration_evalQuiet).1 rfl

/-! ### C7: send failure breaks the loop, state is not rolled back -/

/-- C7: the inner loop terminates exactly when an attempted send failed; the
pan/tilt fields always retain the freshly derived (attempted) intent, an
attempted zoom command's position is retained in `last_zoom_position`, and
after reconnection a state update deriving exactly the stored intent sends
nothing. -/
theorem send_failure_no_rollback (cfg : Config) (st : BridgeState)
    (sendOk : Command → Bool) (js : JoystickState) (res : IterResult)
    (h : runIteration cfg st sendOk js = some res) :
    (res.broke = true ↔ ∃ cmd ∈ res.sent, sendOk cmd = false) ∧
    ((res.state.pan_tilt_direction, res.state.pan_speed,
        res.state.tilt_speed) = derived_pan_tilt cfg js) ∧
    (∀ z, Command.zoomDirect z ∈ res.sent →
      res.state.last_zoom_position = some z) ∧
    (∀ sendOk2 js2 res2, runIteration cfg res.state sendOk2 js2 = some res2 →
      derived_pan_tilt cfg js2 =
        (res.state.pan_tilt_direction, res.state.pan_speed,
          res.state.tilt_speed) →
      some (derived_zoom cfg js2) = res.state.last_zoom_position →
      res2.sent = []) := by
  refine ⟨runIteration_broke_iff h, ?_, ?_, ?_⟩
  · obtain ⟨h1, h2, h3⟩ := runIteration_state_pan_tilt h
    rw [Prod.ext_iff, Prod.ext_iff]
    exact ⟨h1, h2, h3⟩
  · intro z hmem
    obtain ⟨c, st2, hpt, hcase⟩ := runIteration_spec h
    rcases hcase with ⟨_, _, hres⟩ | ⟨_, ⟨_, hres⟩ | ⟨_, ⟨_, hres⟩ | ⟨_, hres⟩⟩⟩ <;>
        subst hres
    · rw [List.mem_singleton] at hmem
      exact absurd hmem (by simp [ptCmdOf])
    · exfalso
      cases c with
      | false => simp [ptSentOf] at hmem
      | true =>
        simp only [ptSentOf, if_true, eq_self_iff_true,
          List.mem_singleton] at hmem
        exact absurd hmem (by simp [ptCmdOf])
    · rw [List.mem_append, List.mem_singleton] at hmem
      rcases hmem with hmem | hmem
      · exfalso
        cases c with
        | false => simp [ptSentOf] at hmem
        | true =>
          simp only [ptSentOf, if_true, eq_self_iff_true,
            List.mem_singleton] at hmem
          exact absurd hmem (by simp [ptCmdOf])
      · rw [Command.zoomDirect.injEq] at hmem
        rw [← hmem]
    · rw [List.mem_append, List.mem_singleton] at hmem
      rcases hmem with hmem | hmem
      · exfalso
        cases c with
        | false => simp [ptSentOf] at hmem
        | true =>
          simp only [ptSentOf, if_true, eq_self_iff_true,
            List.mem_singleton] at hmem
          exact absurd hmem (by simp [ptCmdOf])
      · rw [Command.zoomDirect.injEq] at hmem
        rw [← hmem]
  · intro sendOk2 js2 res2 h2 hsame hzoom
    exact (runIteration_sent_nil_iff h2).mpr ⟨hsame, hzoom⟩

/-- C7 (witness): after a failed pan/tilt send the retained state makes the
next iteration with the same derived intent send nothing. -/
theorem send_failure_no_rollback_witness :
    (IterResult.mk ⟨.Right, 24, 0, some 8250⟩ [] false false).sent = [] :=
  (send_failure_no_rollback _ _ _ _ _ runIteration_evalFail).2.2.2
    (fun _ => true) ⟨1, 0, 0⟩ _ runIteration_evalQuiet2
    (by rw [derived_pan_tilt_evalA])
    (by rw [derived_zoom_eval 1 0 0, interpret_zoom_level_zero])

/-! ### C9: zoom evaluation vs. pan/tilt send outcome — corrected -/

/-- C9 (counterexample): a state update whose pan/tilt send fails `break`s
before `handle_zoom` runs: `last_zoom_position` stays `none` although the
derived zoom position (16500) differs from it, refuting "the zoom intent is
evaluated regardless of whether the pan-tilt send succeeds or fails". -/
theorem zoom_eval_independence_counterexample :
    (runIteration ⟨1/4, 24, 20, false⟩ ⟨.Stop, 0, 0, none⟩ (fun _ => false)
        ⟨1, 0, 1⟩).map (fun r => r.state.last_zoom_position) = some none ∧
    derived_zoom ⟨1/4, 24, 20, false⟩ ⟨1, 0, 1⟩ = 16500 := by
  constructor
  · rw [runIteration_evalCex9]
    rfl
  · rw [derived_zoom_eval 1 0 1, interpret_zoom_level_one]
    rfl

/-- C9 (amended): pan/tilt and zoom evaluation are independent of each
other's *change* outcome — the zoom stage runs and records the derived zoom
whenever the pan/tilt stage did not break the iteration (no change, or a
successful send); but when the pan/tilt intent changed and its send failed,
the loop breaks before the zoom stage and `last_zoom_position` is left
unchanged. -/
theorem zoom_eval_independence (cfg : Config) (st : BridgeState)
    (sendOk : Command → Bool) (js : JoystickState) (res : IterResult)
    (h : runIteration cfg st sendOk js = some res) :
    (derived_pan_tilt cfg js =
        (st.pan_tilt_direction, st.pan_speed, st.tilt_speed) ∨
      sendOk (Command.panTilt (derived_pan_tilt cfg js).2.1
        (derived_pan_tilt cfg js).2.2 (derived_pan_tilt cfg js).1) = true →
      res.state.last_zoom_position = some (derived_zoom cfg js)) ∧
    (derived_pan_tilt cfg js ≠
        (st.pan_tilt_direction, st.pan_speed, st.tilt_speed) →
      sendOk (Command.panTilt (derived_pan_tilt cfg js).2.1
        (derived_pan_tilt cfg js).2.2 (derived_pan_tilt cfg js).1) = false →
      res.state.last_zoom_position = st.last_zoom_position) :=
  ⟨fun hc => runIteration_zoom_updated h hc,
   fun hne hf => runIteration_zoom_skipped h hne hf⟩

/-- C9 (witness): the amended statement at a quiet concrete iteration. -/
theorem zoom_eval_independence_witness :
    (IterResult.mk ⟨.Stop, 0, 0, some 8250⟩ [] false false).state.last_zoom_position =
      some (derived_zoom ⟨1/4, 24, 20, false⟩ ⟨0, 0, 0⟩) :=
  (zoom_eval_independence _ _ _ _ _ runIteration_evalQuiet).1
    (Or.inl (by rw [derived_pan_tilt_evalC]))

/-! ### C10: command ranges and absence of panics -/

/-- C10: with the constructor-clamped maxima (at most 24 for pan, 20 for
tilt), an iteration from any bridge state on any joystick state (axes not
restricted to `[-1, 1]`) never panics in the `PanSpeed::new` /
`TiltSpeed::new` unwraps, and every emitted command respects the transport
ranges: pan speed `0..=24`, tilt speed `0..=20`, zoom `0..=16500`. -/
theorem command_ranges_no_panic (t : ℚ) (pm tm : ℕ) (inv : Bool)
    (st : BridgeState) (sendOk : Command → Bool) (js : JoystickState) :
    ∃ res, runIteration (CameraBridge.new t pm tm inv).1 st sendOk js =
        some res ∧
      ∀ cmd ∈ res.sent, cmd.valid := by
  have hp : (CameraBridge.new t pm tm inv).1.pan_max_speed ≤ 24 :=
    Nat.min_le_right pm 24
  have ht : (CameraBridge.new t pm tm inv).1.tilt_max_speed ≤ 20 :=
    Nat.min_le_right tm 20
  obtain ⟨res, hres⟩ := @runIteration_isSome _ st sendOk js hp ht
  exact ⟨res, hres, runIteration_sent_valid hres hp ht⟩

/-- C10 (witness): the emitted pan/tilt command of a concrete iteration is
within range. -/
theorem command_ranges_no_panic_witness :
    (Command.panTilt 24 0 .Right).valid := by
  obtain ⟨res, hres, hvalid⟩ :=
    command_ranges_no_panic (1/4) 24 20 false ⟨.Stop, 0, 0, none⟩
      (fun _ => false) ⟨1, 0, 0⟩
  have hres2 : res = ⟨⟨.Right, 24, 0, none⟩, [.panTilt 24 0 .Right],
      true, false⟩ := by
    have := runIteration_evalCex
    rw [show (CameraBridge.new (1/4) 24 20 false).1 =
        (⟨1/4, 24, 20, false⟩ : Config) from rfl] at hres
    rw [this] at hres
    exact (Option.some.injEq _ _).mp hres.symm
  subst hres2
  exact hvalid _ (by simp)

/-! ### C8: the connect/retry loop -/

lemma connect_to_camera_succeeds (ok : ℕ → Bool) (n : ℕ) :
    ∀ start, (∀ k, k < n → ok (start + k) = false) → ok (start + n) = true →
      connect_to_camera ok (n + 1) start = some (start + n, 5 * (start + n)) := by
  induction n with
  | zero =>
    intro start hfail hsucc
    unfold connect_to_camera
    rw [if_pos (by simpa using hsucc)]
    simp
  | succ m ih =>
    intro start hfail hsucc
    unfold connect_to_camera
    rw [if_neg (by simpa using hfail 0 (Nat.succ_pos m))]
    have hrec := ih (start + 1)
      (fun k hk => by
        have h2 := hfail (k + 1) (by omega)
        rwa [show start + (k + 1) = start + 1 + k by omega] at h2)
      (by rwa [show start + 1 + m = start + (m + 1) by omega])
    rw [hrec, show start + 1 + m = start + (m + 1) by omega]

lemma connect_to_camera_pending (ok : ℕ → Bool) :
    ∀ fuel start, (∀ k, k < fuel → ok (start + k) = false) →
      connect_to_camera ok fuel start = none := by
  intro fuel
  induction fuel with
  | zero => intro start _; rfl
  | succ m ih =>
    intro start hfail
    unfold connect_to_camera
    rw [if_neg (by simpa using hfail 0 (Nat.succ_pos m))]
    exact ih (start + 1) fun k hk => by
      have h2 := hfail (k + 1) (by omega)
      rwa [show start + (k + 1) = start + 1 + k by omega] at h2

/-- C8: if the first successful connection attempt is attempt `n` (all
earlier ones fail), `connect_to_camera` returns exactly that attempt having
slept a fixed 5 seconds per failure (`5 * n` total — no backoff growth), and
for any observation window that ends before the success it is still
retrying (`none`), never an error: there is no failure outcome in its type,
for any number `n` of leading failures (no retry limit). -/
theorem connect_retry_spec (ok : ℕ → Bool) (n : ℕ)
    (hfail : ∀ k, k < n → ok k = false) (hn : ok n = true) :
    connect_to_camera ok (n + 1) 0 = some (n, 5 * n) ∧
    ∀ fuel, fuel ≤ n → connect_to_camera ok fuel 0 = none := by
  constructor
  · have h := connect_to_camera_succeeds ok n 0
      (fun k hk => by simpa using hfail k hk) (by simpa using hn)
    simpa using h
  · intro fuel hfuel
    exact connect_to_camera_pending ok fuel 0 fun k hk => by
      simpa using hfail k (lt_of_lt_of_le hk hfuel)

/-- C8 (witness): with the first two attempts failing and the third
succeeding, the loop returns attempt 2 after 10 seconds of backoff. -/
theorem connect_retry_spec_witness :
    connect_to_camera (fun k => k == 2) 3 0 = some (2, 10) :=
  (connect_retry_spec (fun k => k == 2) 2
    (fun k hk => by interval_cases k <;> rfl) rfl).1
